import Mathlib

/-!
Verification of the iMi MCP server command-execution core.

Shallow embedding of `src/mcp-server/src/imi_mcp/cli_wrapper.py`
(`run_imi_command`), the result schema
`src/mcp-server/src/imi_mcp/schemas.py` (`CLIResult`, `WorktreeResult`)
and the `create_worktree` tool of `src/mcp-server/src/imi_mcp/tools.py`.

Effectful steps (executable resolution via `shutil.which`, process spawn,
the `asyncio.wait_for` timeout, UTF-8 decoding of the captured byte
streams) are modelled as explicit inputs; the parsing and result
construction logic is translated directly from the Python source.
-/

/-- JSON-like values, the result type of `json.loads`.  Numbers are
restricted to integers (the integer subset of JSON; none of the strings
this development evaluates contain fractions or exponents).  Objects keep
their key/value pairs in source order; lookups take the last binding,
matching the way Python dict construction lets later duplicate keys win. -/
inductive Json where
  | null : Json
  | bool : Bool → Json
  | num : Int → Json
  | str : String → Json
  | arr : List Json → Json
  | obj : List (String × Json) → Json

/-- Python `key in parsed` for a dict produced by `json.loads` on a string
that starts with a brace: key membership.  (The call sites in
`cli_wrapper.py` only reach this with objects, because the scanned line is
required to start with a brace before `json.loads` is attempted.) -/
def hasKey (j : Json) (k : String) : Bool :=
  match j with
  | .obj kvs => kvs.any (fun kv => kv.1 == k)
  | _ => false

/-- Python `dict.get(k)`: the value of the last binding of `k`, if any. -/
def dictGet (j : Json) (k : String) : Option Json :=
  match j with
  | .obj kvs => (kvs.reverse.find? (fun kv => kv.1 == k)).map (fun kv => kv.2)
  | _ => none

/-- Python `dict.get(k, d)`: `dictGet` with a default. -/
def dictGetD (j : Json) (k : String) (d : Json) : Json :=
  (dictGet j k).getD d

/-- Python truthiness of a JSON-like value (`bool(x)`). -/
def pyTruthy (j : Json) : Bool :=
  match j with
  | .null => false
  | .bool b => b
  | .num n => n != 0
  | .str s => !s.isEmpty
  | .arr xs => !xs.isEmpty
  | .obj kvs => !kvs.isEmpty

/-- Whitespace characters stripped by Python `str.strip()` (ASCII part). -/
def isPySpace (c : Char) : Bool :=
  c == ' ' || c == '\t' || c == '\n' || c == '\r' || c == '\x0b' || c == '\x0c'

/-- Python `str.strip()`: drop leading and trailing whitespace. -/
def pyStrip (s : String) : String :=
  String.mk (((s.toList.dropWhile isPySpace).reverse.dropWhile isPySpace).reverse)

/-- Split a character list at every newline, keeping empty pieces.
`splitNL [] = [[]]`, matching Python where `"".split("\n") == [""]`. -/
def splitNL : List Char → List (List Char)
  | [] => [[]]
  | c :: cs =>
    match splitNL cs with
    | [] => [[]]
    | h :: t => if c == '\n' then [] :: h :: t else (c :: h) :: t

/-- Python `s.split("\n")`. -/
def pySplitNL (s : String) : List String :=
  (splitNL s.toList).map String.mk

/-- Python `s.startswith("{")`. -/
def startsWithBrace (s : String) : Bool :=
  match s.toList with
  | c :: _ => c == '{'
  | [] => false

/-! ### A model of `json.loads`

A fuel-indexed recursive-descent parser.  The fuel argument makes the
recursion structural, so the kernel can evaluate the parser on concrete
strings.  Covered grammar: `null`, `true`, `false`, integers, strings with
the single-character escapes, arrays and objects — the subset of JSON that
the wrapped CLI protocol uses.  Like Python `json.loads` in its default
strict mode, unescaped control characters inside strings are rejected. -/

/-- JSON inter-token whitespace. -/
def isJsonWs (c : Char) : Bool :=
  c == ' ' || c == '\t' || c == '\n' || c == '\r'

/-- Skip inter-token whitespace. -/
def skipWs (cs : List Char) : List Char :=
  cs.dropWhile isJsonWs

/-- Single-character string escapes of JSON. -/
def escChar (c : Char) : Option Char :=
  match c with
  | '"' => some '"'
  | '\\' => some '\\'
  | '/' => some '/'
  | 'n' => some '\n'
  | 't' => some '\t'
  | 'r' => some '\r'
  | 'b' => some (Char.ofNat 8)
  | 'f' => some (Char.ofNat 12)
  | _ => none

/-- Parse the body of a JSON string after the opening quote; returns the
decoded characters and the rest of the input after the closing quote. -/
def parseStringBody : List Char → Option (List Char × List Char)
  | [] => none
  | '"' :: rest => some ([], rest)
  | '\\' :: e :: rest =>
    match escChar e with
    | some c => (parseStringBody rest).map (fun p => (c :: p.1, p.2))
    | none => none
  | c :: rest =>
    if c.toNat < 32 then none
    else (parseStringBody rest).map (fun p => (c :: p.1, p.2))

/-- ASCII digit test. -/
def isDigitChar (c : Char) : Bool :=
  Nat.ble 48 c.toNat && Nat.ble c.toNat 57

/-- Value of a decimal digit list (most significant first). -/
def digitsToNat (ds : List Char) : Nat :=
  ds.foldl (fun a c => a * 10 + (c.toNat - 48)) 0

/-- Parser modes: a value, the members of an object after the opening
brace (with the members parsed so far), or the elements of an array after
the opening bracket (with the elements parsed so far). -/
inductive PMode where
  | value : PMode
  | members : List (String × Json) → PMode
  | elems : List Json → PMode

/-- One fuel-indexed parsing function for all three modes; every
recursive call decreases the fuel, so the recursion is structural. -/
def parseStep : Nat → PMode → List Char → Option (Json × List Char)
  | 0, _, _ => none
  | Nat.succ fuel, PMode.value, cs =>
    match skipWs cs with
    | 'n' :: 'u' :: 'l' :: 'l' :: rest => some (.null, rest)
    | 't' :: 'r' :: 'u' :: 'e' :: rest => some (.bool true, rest)
    | 'f' :: 'a' :: 'l' :: 's' :: 'e' :: rest => some (.bool false, rest)
    | '"' :: rest =>
      (parseStringBody rest).map (fun p => (.str (String.mk p.1), p.2))
    | '{' :: rest =>
      (match skipWs rest with
       | '}' :: r => some (.obj [], r)
       | cs2 => parseStep fuel (PMode.members []) cs2)
    | '[' :: rest =>
      (match skipWs rest with
       | ']' :: r => some (.arr [], r)
       | cs2 => parseStep fuel (PMode.elems []) cs2)
    | '-' :: rest =>
      (match rest.takeWhile isDigitChar with
       | [] => none
       | ds => some (.num (-(digitsToNat ds : Int)), rest.dropWhile isDigitChar))
    | c :: rest =>
      if isDigitChar c then
        some (.num (digitsToNat (c :: rest.takeWhile isDigitChar)),
              rest.dropWhile isDigitChar)
      else none
    | [] => none
  | Nat.succ fuel, PMode.members acc, cs =>
    match skipWs cs with
    | '"' :: rest =>
      (match parseStringBody rest with
       | some (k, r1) =>
         (match skipWs r1 with
          | ':' :: r2 =>
            (match parseStep fuel PMode.value r2 with
             | some (v, r3) =>
               (match skipWs r3 with
                | ',' :: r4 => parseStep fuel (PMode.members (acc ++ [(String.mk k, v)])) r4
                | '}' :: r4 => some (.obj (acc ++ [(String.mk k, v)]), r4)
                | _ => none)
             | none => none)
          | _ => none)
       | none => none)
    | _ => none
  | Nat.succ fuel, PMode.elems acc, cs =>
    match parseStep fuel PMode.value cs with
    | some (v, r) =>
      (match skipWs r with
       | ',' :: r2 => parseStep fuel (PMode.elems (acc ++ [v])) r2
       | ']' :: r2 => some (.arr (acc ++ [v]), r2)
       | _ => none)
    | none => none

/-- Model of Python `json.loads`: parse one value and require that only
whitespace follows it. -/
def json_loads (s : String) : Option Json :=
  match parseStep (4 * s.toList.length + 4) PMode.value s.toList with
  | some (v, rest) => if (skipWs rest).isEmpty then some v else none
  | none => none

/-! ### The result schema (`schemas.py`)

`CLIResult` is a pydantic `BaseModel`; pydantic v2 validates field values
at construction time in its default lax mode.  The three fields that
receive values taken from the decoded JSON line are
`success: bool`, `data: Optional[Dict[str, Any]]` and
`error: Optional[str]`; the coercions below model pydantic's lax rules
for those annotations.  A value the coercion rejects corresponds to a
`ValidationError` raised inside the `try:` block of `run_imi_command`,
which the final `except Exception` handler converts to a generic exit-1
failure result. -/

/-- Pydantic v2 lax coercion to `bool`: booleans; the integers 0 and 1;
and the case-insensitive strings accepted by pydantic-core.  Everything
else (null, other numbers and strings, arrays, objects) raises a
`ValidationError`, modelled as `none`. -/
def pydanticBool (j : Json) : Option Bool :=
  match j with
  | .bool b => some b
  | .num n => if n == 0 then some false else if n == 1 then some true else none
  | .str s =>
    let l := s.toLower
    if l == "true" || l == "t" || l == "yes" || l == "y" || l == "on" || l == "1" then
      some true
    else if l == "false" || l == "f" || l == "no" || l == "n" || l == "off" || l == "0" then
      some false
    else none
  | _ => none

/-- Pydantic v2 validation of `Optional[Dict[str, Any]]`: an absent value
or JSON `null` becomes `None`; a JSON object is accepted; any other value
raises a `ValidationError`, modelled as `none`. -/
def validateOptDict (v : Option Json) : Option (Option Json) :=
  match v with
  | none => some none
  | some .null => some none
  | some (.obj kvs) => some (some (.obj kvs))
  | some _ => none

/-- Pydantic v2 validation of `Optional[str]`: an absent value or JSON
`null` becomes `None`; a JSON string is accepted; any other value raises
a `ValidationError`, modelled as `none`. -/
def validateOptStr (v : Option Json) : Option (Option String) :=
  match v with
  | none => some none
  | some .null => some none
  | some (.str s) => some (some s)
  | some _ => none

/-- `CLIResult` of `schemas.py`: result of executing an iMi CLI command.
Field defaults in the source are `data=None`, `error=None`, `stdout=None`,
`stderr=None`, `exit_code=0`; every construction site below passes its
fields explicitly. -/
structure CLIResult where
  success : Bool
  data : Option Json
  error : Option String
  stdout : Option String
  stderr : Option String
  exit_code : Int

/-- Result of decoding one captured byte stream with
`bytes.decode("utf-8")`: either the decoded text or a
`UnicodeDecodeError` carrying the exception text `str(e)`. -/
inductive DecodeResult where
  | ok : String → DecodeResult
  | err : String → DecodeResult

/-- What `process.communicate()` produced for a process that terminated
before the timeout: the exit status and the two captured streams. -/
structure CompletedProcess where
  returncode : Int
  stdoutRaw : DecodeResult
  stderrRaw : DecodeResult

/-- The observable behaviour of the spawn/wait step
(`asyncio.create_subprocess_exec` + `asyncio.wait_for(process.communicate(), ...)`):
the process completed in time, the timeout elapsed first
(`asyncio.TimeoutError`; the partial output captured up to that point is
recorded here only to state that the code discards it), or spawning
itself raised (`str(e)` recorded). -/
inductive SpawnResult where
  | completed : CompletedProcess → SpawnResult
  | timedOut : String → String → SpawnResult
  | failed : String → SpawnResult

/-- The backward scan of `run_imi_command` over an already-reversed line
list: for each line, if its stripped text starts with a brace, try
`json.loads`; stop at the first line that decodes and contains a field
named `success`, returning that stripped line; skip decode failures and
lines without the field. -/
def findJsonLineRev : List String → Option String
  | [] => none
  | line :: rest =>
    let t := pyStrip line
    if startsWithBrace t then
      match json_loads t with
      | some parsed =>
        if hasKey parsed "success" then some t else findJsonLineRev rest
      | none => findJsonLineRev rest
    else findJsonLineRev rest

/-- The scan `for line in reversed(lines): ...` of `run_imi_command`. -/
def findJsonLine (lines : List String) : Option String :=
  findJsonLineRev lines.reverse

/-- The generic handler `except Exception as e:` of `run_imi_command`. -/
def unexpectedResult (msg : String) : CLIResult :=
  { success := false, data := none,
    error := some ("Unexpected error: " ++ msg),
    stdout := none, stderr := none, exit_code := 1 }

/-- `run_imi_command` of `cli_wrapper.py`.

Inputs that stand for the effectful steps: `which` is the result of
`shutil.which(config.imi_binary_path)` (the resolved binary path, if
any), `timeout_seconds` is `config.timeout_seconds`, and `spawn` is the
behaviour of the spawned process.  `args` are the caller-supplied command
arguments (they influence only which process is spawned, not how its
output is interpreted). -/
def run_imi_command (args : List String) (imi_binary_path : String)
    (which : Option String) (timeout_seconds : Nat)
    (spawn : SpawnResult) : CLIResult :=
  match which with
  | none =>
    { success := false, data := none,
      error := some ("iMi binary not found: " ++ imi_binary_path ++
        ". Ensure iMi is installed and in PATH."),
      stdout := none, stderr := none, exit_code := 127 }
  | some _imi_binary =>
    match spawn with
    | .failed msg => unexpectedResult msg
    | .timedOut _ _ =>
      { success := false, data := none,
        error := some ("Command timed out after " ++ toString timeout_seconds ++ " seconds"),
        stdout := none, stderr := none, exit_code := 124 }
    | .completed p =>
      match p.stdoutRaw with
      | .err msg => unexpectedResult msg
      | .ok stdoutText =>
        match p.stderrRaw with
        | .err msg => unexpectedResult msg
        | .ok stderrText =>
          let stdout_str := pyStrip stdoutText
          let stderr_str := pyStrip stderrText
          if p.returncode = 0 then
            match findJsonLine (pySplitNL stdout_str) with
            | some json_line =>
              (match json_loads json_line with
               | some data =>
                 (match pydanticBool (dictGetD data "success" (.bool true)),
                        validateOptDict (dictGet data "data"),
                        validateOptStr (dictGet data "error") with
                  | some b, some dv, some ev =>
                    { success := b, data := dv, error := ev,
                      stdout := some stdout_str, stderr := none, exit_code := 0 }
                  | _, _, _ => unexpectedResult "validation error for CLIResult")
               | none =>
                 { success := false, data := none,
                   error := some "Failed to parse JSON output",
                   stdout := some stdout_str, stderr := some stderr_str,
                   exit_code := 0 })
            | none =>
              { success := true, data := none, error := none,
                stdout := some stdout_str, stderr := some stderr_str,
                exit_code := 0 }
          else
            let error_msg := if stderr_str = "" then stdout_str else stderr_str
            { success := false, data := none,
              error := some (if error_msg = "" then
                  "Command failed with exit code " ++ toString p.returncode
                else error_msg),
              stdout := some stdout_str, stderr := some stderr_str,
              exit_code := p.returncode }

/-- Process-control operations `run_imi_command` can perform on the
child: creating it, awaiting its completion, and killing it. -/
inductive ProcAction where
  | spawnProc : List String → ProcAction
  | waitProc : ProcAction
  | killProc : ProcAction
deriving DecidableEq

/-- The sequence of process-control operations `run_imi_command`
performs, read off the source: nothing when the binary is unresolved
(the function returns before `asyncio.create_subprocess_exec`); only the
failed creation attempt (no process exists) when spawning raises; and
spawn followed by the await of `process.communicate()` otherwise —
including the timeout path, where `asyncio.wait_for` cancels the await
but the source performs no kill or terminate operation. -/
def procActions (args : List String) (which : Option String)
    (spawn : SpawnResult) : List ProcAction :=
  match which with
  | none => []
  | some imi_binary =>
    match spawn with
    | .failed _ => []
    | .timedOut _ _ => [.spawnProc (imi_binary :: "--json" :: args), .waitProc]
    | .completed _ => [.spawnProc (imi_binary :: "--json" :: args), .waitProc]

/-- `WorktreeResult` of `schemas.py`: standardized MCP tool response. -/
structure WorktreeResult where
  success : Bool
  message : String
  data : Option Json
  error : Option String

/-- Python `x or dflt` for `x: Optional[str]` and a string default:
`None` and the empty string are falsy. -/
def pyOrStr (x : Option String) (dflt : String) : String :=
  match x with
  | some s => if s.isEmpty then dflt else s
  | none => dflt

/-- Python truthiness of `result.data : Optional[Dict]`: `None` and the
empty dict are falsy. -/
def truthyData (d : Option Json) : Bool :=
  match d with
  | some j => pyTruthy j
  | none => false

/-- The `create_worktree` tool of `tools.py`: builds the argument list,
runs the CLI command, and reports success only when the command succeeded
*and* returned a truthy `data` field. -/
def create_worktree (name : String) (worktree_type : String)
    (repo : Option String) (imi_binary_path : String)
    (which : Option String) (timeout_seconds : Nat)
    (spawn : SpawnResult) : WorktreeResult :=
  let args := ["add", worktree_type, name] ++
    (match repo with
     | some r => ["--repo", r]
     | none => [])
  let result := run_imi_command args imi_binary_path which timeout_seconds spawn
  if result.success && truthyData result.data then
    { success := true,
      message := "Worktree \x27" ++ name ++ "\x27 created successfully",
      data := result.data, error := none }
  else
    { success := false,
      message := "Failed to create worktree \x27" ++ name ++ "\x27",
      data := none, error := some (pyOrStr result.error "Unknown error") }

/-! ### Helper lemmas -/

/-- The per-line selection criterion of the backward scan, as one
predicate: the stripped line starts with a brace, `json.loads` succeeds
on it, and the decoded object contains a field named `success`. -/
def isResultLine (line : String) : Bool :=
  startsWithBrace (pyStrip line) &&
    (match json_loads (pyStrip line) with
     | some parsed => hasKey parsed "success"
     | none => false)

/-- Whether an execution takes the structured-extraction path of
`run_imi_command`: the process completed with exit status 0, its stdout
decoded, and the backward scan finds a JSON result line. -/
def jsonLinePath (spawn : SpawnResult) : Bool :=
  match spawn with
  | .completed p =>
    match p.stdoutRaw with
    | .ok stdoutText =>
      decide (p.returncode = 0) &&
        (findJsonLine (pySplitNL (pyStrip stdoutText))).isSome
    | .err _ => false
  | _ => false

/-- The scan loop returns exactly the stripped text of the first line of
its input satisfying `isResultLine`. -/
theorem findJsonLineRev_eq_find (l : List String) :
    findJsonLineRev l = (l.find? isResultLine).map pyStrip := by
  induction l with
  | nil => rfl
  | cons x xs ih =>
    cases hsb : startsWithBrace (pyStrip x) with
    | false =>
      rw [List.find?_cons_of_neg _ (by simp [isResultLine, hsb])]
      simp [findJsonLineRev, hsb, ih]
    | true =>
      cases hj : json_loads (pyStrip x) with
      | none =>
        rw [List.find?_cons_of_neg _ (by simp [isResultLine, hsb, hj])]
        simp [findJsonLineRev, hsb, hj, ih]
      | some parsed =>
        cases hk : hasKey parsed "success" with
        | false =>
          rw [List.find?_cons_of_neg _ (by simp [isResultLine, hsb, hj, hk])]
          simp [findJsonLineRev, hsb, hj, hk, ih]
        | true =>
          rw [List.find?_cons_of_pos _ (by simp [isResultLine, hsb, hj, hk])]
          simp [findJsonLineRev, hsb, hj, hk]

/-- Appending to a non-empty string yields a non-empty string. -/
theorem append_ne_empty_left (s t : String) (h : s ≠ "") : s ++ t ≠ "" := by
  intro heq
  apply h
  cases s with
  | mk a =>
    cases t with
    | mk b =>
      have hd : a ++ b = [] := congrArg String.data heq
      have ha : a = [] := (List.append_eq_nil.mp hd).1
      show String.mk a = ""
      rw [ha]

/-- The exit-0 branch of `run_imi_command` when the backward scan finds
no JSON result line: plain-text success. -/
theorem run_no_json_line (args : List String) (bin p : String) (t : Nat)
    (so se : String) (h : findJsonLine (pySplitNL (pyStrip so)) = none) :
    run_imi_command args bin (some p) t (.completed ⟨0, .ok so, .ok se⟩)
      = { success := true, data := none, error := none,
          stdout := some (pyStrip so), stderr := some (pyStrip se),
          exit_code := 0 } := by
  simp [run_imi_command, h]

/-- The exit-0 branch of `run_imi_command` when the backward scan finds a
JSON result line and all three field values pass pydantic validation. -/
theorem run_json_line (args : List String) (bin p : String) (t : Nat)
    (so se : String) (l : String) (d : Json) (b : Bool)
    (dv : Option Json) (ev : Option String)
    (hfind : findJsonLine (pySplitNL (pyStrip so)) = some l)
    (hload : json_loads l = some d)
    (hb : pydanticBool (dictGetD d "success" (Json.bool true)) = some b)
    (hd : validateOptDict (dictGet d "data") = some dv)
    (he : validateOptStr (dictGet d "error") = some ev) :
    run_imi_command args bin (some p) t (.completed ⟨0, .ok so, .ok se⟩)
      = { success := b, data := dv, error := ev,
          stdout := some (pyStrip so), stderr := none, exit_code := 0 } := by
  simp [run_imi_command, hfind, hload, hb, hd, he]

/-! ### Claim theorems -/

/-- C1 (counterexample): on exit status 0 with stdout
`{"success": true, "data": 5}`, the backward scan does select that line
and its `success` field is `true`, so the claim demands an Outcome with
`ok = true`, `payload = 5` and `exitCode = 0`; but because the `data`
value `5` is not a dict, constructing `CLIResult` raises a pydantic
`ValidationError`, and the code instead returns the generic failure
outcome with `ok = false`, no payload and `exitCode = 1`. -/
theorem C1_counterexample :
    findJsonLine (pySplitNL (pyStrip "\x7b\"success\": true, \"data\": 5\x7d"))
      = some "\x7b\"success\": true, \"data\": 5\x7d" ∧
    json_loads "\x7b\"success\": true, \"data\": 5\x7d"
      = some (Json.obj [("success", Json.bool true), ("data", Json.num 5)]) ∧
    (run_imi_command [] "imi" (some "/usr/bin/imi") 30
        (.completed ⟨0, .ok "\x7b\"success\": true, \"data\": 5\x7d", .ok ""⟩)).success
      = false ∧
    (run_imi_command [] "imi" (some "/usr/bin/imi") 30
        (.completed ⟨0, .ok "\x7b\"success\": true, \"data\": 5\x7d", .ok ""⟩)).data
      = none ∧
    (run_imi_command [] "imi" (some "/usr/bin/imi") 30
        (.completed ⟨0, .ok "\x7b\"success\": true, \"data\": 5\x7d", .ok ""⟩)).exit_code
      = 1 :=
  ⟨rfl, rfl, rfl, rfl, rfl⟩

/-- C1 (amended): for an execution with exit status 0 whose stdout
decoded cleanly, if the first line in backward order satisfying the
selection criterion (trimmed text starts with a brace, decodes, and
contains a field named `success`) exists, and the selected line's
`success` field coerces to a boolean `b`, its `data` field validates as
an optional dict `dv` and its `error` field as an optional string `ev`,
then the Outcome is exactly `ok = b`, `payload = dv`,
`errorMessage = ev`, stripped stdout retained, `exitCode = 0`. -/
theorem C1_backward_scan_amended (args : List String) (bin p : String)
    (t : Nat) (so se : String) (l : String) (d : Json) (b : Bool)
    (dv : Option Json) (ev : Option String)
    (hfind : ((pySplitNL (pyStrip so)).reverse.find? isResultLine) = some l)
    (hload : json_loads (pyStrip l) = some d)
    (hb : pydanticBool (dictGetD d "success" (Json.bool true)) = some b)
    (hd : validateOptDict (dictGet d "data") = some dv)
    (he : validateOptStr (dictGet d "error") = some ev) :
    run_imi_command args bin (some p) t (.completed ⟨0, .ok so, .ok se⟩)
      = { success := b, data := dv, error := ev,
          stdout := some (pyStrip so), stderr := none, exit_code := 0 } := by
  have hf : findJsonLine (pySplitNL (pyStrip so)) = some (pyStrip l) := by
    rw [findJsonLine, findJsonLineRev_eq_find, hfind]
    rfl
  exact run_json_line args bin p t so se (pyStrip l) d b dv ev hf hload hb hd he

/-- C1 (witness): the backward-scan preference test of the spec — two
candidate lines starting with a brace, only the last valid JSON with a
`success` field — evaluated concretely. -/
theorem C1_backward_scan_witness :
    ((pySplitNL (pyStrip "\x7bnot json\n\x7b\"success\": true, \"data\": \x7b\"path\": \"/x\"\x7d\x7d")).reverse.find?
        isResultLine)
      = some "\x7b\"success\": true, \"data\": \x7b\"path\": \"/x\"\x7d\x7d" ∧
    json_loads (pyStrip "\x7b\"success\": true, \"data\": \x7b\"path\": \"/x\"\x7d\x7d")
      = some (Json.obj [("success", Json.bool true),
          ("data", Json.obj [("path", Json.str "/x")])]) ∧
    run_imi_command [] "imi" (some "/usr/bin/imi") 30
        (.completed ⟨0,
          .ok "\x7bnot json\n\x7b\"success\": true, \"data\": \x7b\"path\": \"/x\"\x7d\x7d",
          .ok ""⟩)
      = { success := true,
          data := some (Json.obj [("path", Json.str "/x")]), error := none,
          stdout := some "\x7bnot json\n\x7b\"success\": true, \"data\": \x7b\"path\": \"/x\"\x7d\x7d",
          stderr := none, exit_code := 0 } :=
  ⟨rfl, rfl,
    C1_backward_scan_amended [] "imi" "/usr/bin/imi" 30
      "\x7bnot json\n\x7b\"success\": true, \"data\": \x7b\"path\": \"/x\"\x7d\x7d" ""
      "\x7b\"success\": true, \"data\": \x7b\"path\": \"/x\"\x7d\x7d"
      (Json.obj [("success", Json.bool true),
        ("data", Json.obj [("path", Json.str "/x")])])
      true (some (Json.obj [("path", Json.str "/x")])) none
      rfl rfl rfl rfl rfl⟩

/-- C2 (counterexample): on exit status 0 with stdout
`{"success": true, "error": "oops"}`, the success path copies the
`error` field regardless of the `success` value, so the Outcome has
`ok = true` with `errorMessage` present — violating the claimed
invariant that `ok = true` implies `errorMessage` absent. -/
theorem C2_counterexample :
    (run_imi_command [] "imi" (some "/usr/bin/imi") 30
        (.completed ⟨0, .ok "\x7b\"success\": true, \"error\": \"oops\"\x7d", .ok ""⟩)).success
      = true ∧
    (run_imi_command [] "imi" (some "/usr/bin/imi") 30
        (.completed ⟨0, .ok "\x7b\"success\": true, \"error\": \"oops\"\x7d", .ok ""⟩)).error
      = some "oops" :=
  ⟨rfl, rfl⟩

/-- C2 (amended): the invariant — `ok = true` implies `errorMessage`
absent, and `ok = false` implies `errorMessage` present and non-empty —
holds for every Outcome that is not produced by the structured-extraction
path; on that path `ok` and `errorMessage` come independently from the
JSON line's `success` and `error` fields and the invariant can fail. -/
theorem C2_invariant_amended (args : List String) (bin : String)
    (which : Option String) (t : Nat) (spawn : SpawnResult)
    (h : jsonLinePath spawn = false) :
    ((run_imi_command args bin which t spawn).success = true →
      (run_imi_command args bin which t spawn).error = none) ∧
    ((run_imi_command args bin which t spawn).success = false →
      ∃ m, (run_imi_command args bin which t spawn).error = some m ∧ m ≠ "") := by
  cases which with
  | none =>
    refine ⟨fun hs => by simp [run_imi_command] at hs, fun _ => ?_⟩
    refine ⟨_, rfl, ?_⟩
    exact append_ne_empty_left _ _ (append_ne_empty_left _ _ (by decide))
  | some p =>
    cases spawn with
    | failed msg =>
      refine ⟨fun hs => by simp [run_imi_command, unexpectedResult] at hs, fun _ => ?_⟩
      exact ⟨_, rfl, append_ne_empty_left _ _ (by decide)⟩
    | timedOut po pe =>
      refine ⟨fun hs => by simp [run_imi_command] at hs, fun _ => ?_⟩
      exact ⟨_, rfl, append_ne_empty_left _ _ (append_ne_empty_left _ _ (by decide))⟩
    | completed pr =>
      obtain ⟨rc, soR, seR⟩ := pr
      cases soR with
      | err m =>
        refine ⟨fun hs => by simp [run_imi_command, unexpectedResult] at hs, fun _ => ?_⟩
        exact ⟨_, rfl, append_ne_empty_left _ _ (by decide)⟩
      | ok so =>
        cases seR with
        | err m =>
          refine ⟨fun hs => by simp [run_imi_command, unexpectedResult] at hs, fun _ => ?_⟩
          exact ⟨_, rfl, append_ne_empty_left _ _ (by decide)⟩
        | ok se =>
          by_cases hrc : rc = 0
          · subst hrc
            have hfind : findJsonLine (pySplitNL (pyStrip so)) = none := by
              simp [jsonLinePath] at h
              exact Option.not_isSome_iff_eq_none.mp (by simp [h])
            rw [run_no_json_line args bin p t so se hfind]
            exact ⟨fun _ => rfl, fun hs => by simp at hs⟩
          · constructor
            · intro hs
              exfalso
              simp [run_imi_command, hrc] at hs
            · intro _
              by_cases h1 : pyStrip se = ""
              · by_cases h2 : pyStrip so = ""
                · refine ⟨"Command failed with exit code " ++ toString rc, ?_,
                    append_ne_empty_left _ _ (by decide)⟩
                  simp [run_imi_command, hrc, h1, h2]
                · refine ⟨pyStrip so, ?_, h2⟩
                  simp [run_imi_command, hrc, h1, h2]
              · refine ⟨pyStrip se, ?_, h1⟩
                simp [run_imi_command, hrc, h1]

/-- C2 (witness): the amended invariant instantiated at a timed-out
execution. -/
theorem C2_invariant_witness :
    jsonLinePath (SpawnResult.timedOut "" "") = false ∧
    (((run_imi_command [] "imi" (some "/usr/bin/imi") 30
          (SpawnResult.timedOut "" "")).success = true →
        (run_imi_command [] "imi" (some "/usr/bin/imi") 30
          (SpawnResult.timedOut "" "")).error = none) ∧
      ((run_imi_command [] "imi" (some "/usr/bin/imi") 30
          (SpawnResult.timedOut "" "")).success = false →
        ∃ m, (run_imi_command [] "imi" (some "/usr/bin/imi") 30
            (SpawnResult.timedOut "" "")).error = some m ∧ m ≠ "")) :=
  ⟨rfl, C2_invariant_amended [] "imi" (some "/usr/bin/imi") 30
    (SpawnResult.timedOut "" "") rfl⟩

/-- C3 (counterexample): with exit status 0 and captured stdout
`"plain text, no JSON\n"`, the code stores the whitespace-stripped text
`"plain text, no JSON"` rather than the captured text byte-for-byte; the
trailing newline is lost, so stdout is not retained verbatim. -/
theorem C3_counterexample :
    (run_imi_command [] "imi" (some "/usr/bin/imi") 30
        (.completed ⟨0, .ok "plain text, no JSON\n", .ok ""⟩)).stdout
      = some "plain text, no JSON" ∧
    "plain text, no JSON" ≠ "plain text, no JSON\n" :=
  ⟨rfl, by decide⟩

/-- C3 (amended): for an execution with exit status 0 whose stdout
contains no line that decodes to an object with a `success` field, the
Outcome has `ok = true`, payload absent, `errorMessage` absent,
`exitCode = 0`, and stdout and stderr retained after stripping leading
and trailing whitespace (not byte-for-byte). -/
theorem C3_no_json_success_amended (args : List String) (bin p : String)
    (t : Nat) (so se : String)
    (h : findJsonLine (pySplitNL (pyStrip so)) = none) :
    run_imi_command args bin (some p) t (.completed ⟨0, .ok so, .ok se⟩)
      = { success := true, data := none, error := none,
          stdout := some (pyStrip so), stderr := some (pyStrip se),
          exit_code := 0 } :=
  run_no_json_line args bin p t so se h

/-- C3 (witness): the spec's plain-text example evaluated concretely. -/
theorem C3_no_json_success_witness :
    findJsonLine (pySplitNL (pyStrip "plain text, no JSON\n")) = none ∧
    run_imi_command [] "imi" (some "/usr/bin/imi") 30
        (.completed ⟨0, .ok "plain text, no JSON\n", .ok ""⟩)
      = { success := true, data := none, error := none,
          stdout := some "plain text, no JSON", stderr := some "",
          exit_code := 0 } :=
  ⟨rfl, C3_no_json_success_amended [] "imi" "/usr/bin/imi" 30
    "plain text, no JSON\n" "" rfl⟩

/-- C4 (counterexample): with exit status 2, raw stderr `" "` (non-empty)
and raw stdout `"out"`, the claim requires `errorMessage = " "` (the
stderr text, which is non-empty); but the code compares and stores the
*stripped* texts, so stderr strips to empty and the error message is the
stdout text `"out"` instead. -/
theorem C4_counterexample :
    (" " : String) ≠ "" ∧
    (run_imi_command [] "imi" (some "/usr/bin/imi") 30
        (.completed ⟨2, .ok "out", .ok " "⟩)).error = some "out" ∧
    (run_imi_command [] "imi" (some "/usr/bin/imi") 30
        (.completed ⟨2, .ok "out", .ok " "⟩)).error ≠ some " " :=
  ⟨by decide, rfl, by decide⟩

/-- C4 (amended): for every execution with non-zero exit status, the
Outcome has `ok = false`, `exitCode` copied unchanged, stripped stdout
and stderr retained, and `errorMessage` equal to the *stripped* stderr
if non-empty, else the *stripped* stdout if non-empty, else the
generated string `"Command failed with exit code <n>"`. -/
theorem C4_failure_path_amended (args : List String) (bin p : String)
    (t : Nat) (rc : Int) (so se : String) (hrc : rc ≠ 0) :
    (run_imi_command args bin (some p) t (.completed ⟨rc, .ok so, .ok se⟩)).success
      = false ∧
    (run_imi_command args bin (some p) t (.completed ⟨rc, .ok so, .ok se⟩)).exit_code
      = rc ∧
    (run_imi_command args bin (some p) t (.completed ⟨rc, .ok so, .ok se⟩)).stdout
      = some (pyStrip so) ∧
    (run_imi_command args bin (some p) t (.completed ⟨rc, .ok so, .ok se⟩)).stderr
      = some (pyStrip se) ∧
    (pyStrip se ≠ "" →
      (run_imi_command args bin (some p) t (.completed ⟨rc, .ok so, .ok se⟩)).error
        = some (pyStrip se)) ∧
    (pyStrip se = "" → pyStrip so ≠ "" →
      (run_imi_command args bin (some p) t (.completed ⟨rc, .ok so, .ok se⟩)).error
        = some (pyStrip so)) ∧
    (pyStrip se = "" → pyStrip so = "" →
      (run_imi_command args bin (some p) t (.completed ⟨rc, .ok so, .ok se⟩)).error
        = some ("Command failed with exit code " ++ toString rc)) := by
  refine ⟨by simp [run_imi_command, hrc], by simp [run_imi_command, hrc],
    by simp [run_imi_command, hrc], by simp [run_imi_command, hrc], ?_, ?_, ?_⟩
  · intro h1
    simp [run_imi_command, hrc, h1]
  · intro h1 h2
    simp [run_imi_command, hrc, h1, h2]
  · intro h1 h2
    simp [run_imi_command, hrc, h1, h2]

/-- C4 (witness): the spec's example — exit code 2 with stderr
`"permission denied"` — evaluated through the amended theorem. -/
theorem C4_failure_path_witness :
    (2 : Int) ≠ 0 ∧
    (run_imi_command [] "imi" (some "/usr/bin/imi") 30
        (.completed ⟨2, .ok "", .ok "permission denied"⟩)).success = false ∧
    (run_imi_command [] "imi" (some "/usr/bin/imi") 30
        (.completed ⟨2, .ok "", .ok "permission denied"⟩)).exit_code = 2 ∧
    (run_imi_command [] "imi" (some "/usr/bin/imi") 30
        (.completed ⟨2, .ok "", .ok "permission denied"⟩)).error
      = some "permission denied" := by
  refine ⟨by decide, ?_, ?_, ?_⟩
  · exact (C4_failure_path_amended [] "imi" "/usr/bin/imi" 30 2 ""
      "permission denied" (by decide)).1
  · exact (C4_failure_path_amended [] "imi" "/usr/bin/imi" 30 2 ""
      "permission denied" (by decide)).2.1
  · exact (C4_failure_path_amended [] "imi" "/usr/bin/imi" 30 2 ""
      "permission denied" (by decide)).2.2.2.2.1 (by decide)

/-- C5: for every invocation whose process has not terminated when the
timeout elapses, the Outcome has `ok = false`, `exitCode = 124`, an
error message naming the configured timeout duration, no stdout/stderr
(the partial output captured before the timeout is discarded), and the
result does not depend on that partial output at all. -/
theorem C5_timeout_outcome (args : List String) (bin p : String) (t : Nat)
    (po pe : String) :
    run_imi_command args bin (some p) t (.timedOut po pe)
      = { success := false, data := none,
          error := some ("Command timed out after " ++ toString t ++ " seconds"),
          stdout := none, stderr := none, exit_code := 124 } ∧
    (∀ po' pe', run_imi_command args bin (some p) t (.timedOut po pe)
        = run_imi_command args bin (some p) t (.timedOut po' pe')) :=
  ⟨rfl, fun _ _ => rfl⟩

/-- C6: when the executable name does not resolve against the search
path (`shutil.which` returns nothing), the call returns immediately with
`ok = false`, `exitCode = 127`, an error message naming the missing
binary, stdout and stderr absent; no process-control action is performed
(no spawn), and the result is independent of any process behaviour. -/
theorem C6_executable_not_found (args : List String) (bin : String)
    (t : Nat) (spawn : SpawnResult) :
    run_imi_command args bin none t spawn
      = { success := false, data := none,
          error := some ("iMi binary not found: " ++ bin ++
            ". Ensure iMi is installed and in PATH."),
          stdout := none, stderr := none, exit_code := 127 } ∧
    procActions args none spawn = [] ∧
    (∀ spawn', run_imi_command args bin none t spawn
        = run_imi_command args bin none t spawn') :=
  ⟨rfl, rfl, fun _ => rfl⟩

/-- C7: `run_imi_command` never performs a kill/terminate operation on
the child process — in particular, on the timeout path its
process-control trace is exactly spawn followed by the (cancelled)
await, with no termination of the still-running child.  This refutes the
claimed forcible termination and guaranteed handle reclamation: the
source catches `asyncio.TimeoutError` and returns, and `asyncio.wait_for`
cancels only the awaiting task, not the subprocess. -/
theorem C7_no_kill_on_timeout (args : List String) (which : Option String)
    (spawn : SpawnResult) :
    ProcAction.killProc ∉ procActions args which spawn ∧
    (∀ b po pe, procActions args (some b) (.timedOut po pe)
        = [ProcAction.spawnProc (b :: "--json" :: args), ProcAction.waitProc]) := by
  constructor
  · cases which with
    | none => simp [procActions]
    | some b => cases spawn <;> simp [procActions]
  · intro b po pe
    rfl

/-- C8: each of the five error classes is converted locally into a
returned `CLIResult` (the model is a total function, so nothing
propagates): unresolved executable → exit 127; spawn failure → the
generic exit-1 result; timeout → exit 124; undecodable output bytes (in
either stream) → the generic exit-1 result; non-zero exit → failure with
the copied exit code; and non-JSON stdout on a clean exit → plain-text
success Outcome. -/
theorem C8_errors_localized :
    (∀ args bin t spawn,
      (run_imi_command args bin none t spawn).success = false ∧
      (run_imi_command args bin none t spawn).exit_code = 127 ∧
      (run_imi_command args bin none t spawn).error.isSome = true) ∧
    (∀ args bin p t msg, run_imi_command args bin (some p) t (.failed msg)
        = unexpectedResult msg) ∧
    (∀ args bin p t po pe,
      (run_imi_command args bin (some p) t (.timedOut po pe)).success = false ∧
      (run_imi_command args bin (some p) t (.timedOut po pe)).exit_code = 124) ∧
    (∀ args bin p t rc msg seRaw,
      run_imi_command args bin (some p) t (.completed ⟨rc, .err msg, seRaw⟩)
        = unexpectedResult msg) ∧
    (∀ args bin p t rc so msg,
      run_imi_command args bin (some p) t (.completed ⟨rc, .ok so, .err msg⟩)
        = unexpectedResult msg) ∧
    (∀ args bin p t rc so se, rc ≠ 0 →
      (run_imi_command args bin (some p) t (.completed ⟨rc, .ok so, .ok se⟩)).success
        = false ∧
      (run_imi_command args bin (some p) t (.completed ⟨rc, .ok so, .ok se⟩)).exit_code
        = rc) ∧
    (∀ args bin p t so se, findJsonLine (pySplitNL (pyStrip so)) = none →
      run_imi_command args bin (some p) t (.completed ⟨0, .ok so, .ok se⟩)
        = { success := true, data := none, error := none,
            stdout := some (pyStrip so), stderr := some (pyStrip se),
            exit_code := 0 }) := by
  refine ⟨fun args bin t spawn => ⟨rfl, rfl, rfl⟩,
    fun args bin p t msg => rfl,
    fun args bin p t po pe => ⟨rfl, rfl⟩,
    fun args bin p t rc msg seRaw => rfl,
    fun args bin p t rc so msg => rfl,
    fun args bin p t rc so se hrc => ?_,
    fun args bin p t so se h => run_no_json_line args bin p t so se h⟩
  exact ⟨by simp [run_imi_command, hrc], by simp [run_imi_command, hrc]⟩

/-- C8 (witness): the two conditional conjuncts instantiated — a
non-zero exit (code 2) and a clean exit with non-JSON stdout. -/
theorem C8_errors_localized_witness :
    (2 : Int) ≠ 0 ∧
    (run_imi_command [] "imi" (some "/usr/bin/imi") 30
        (.completed ⟨2, .ok "", .ok "boom"⟩)).success = false ∧
    (run_imi_command [] "imi" (some "/usr/bin/imi") 30
        (.completed ⟨2, .ok "", .ok "boom"⟩)).exit_code = 2 ∧
    findJsonLine (pySplitNL (pyStrip "hello")) = none ∧
    run_imi_command [] "imi" (some "/usr/bin/imi") 30
        (.completed ⟨0, .ok "hello", .ok ""⟩)
      = { success := true, data := none, error := none,
          stdout := some "hello", stderr := some "", exit_code := 0 } := by
  refine ⟨by decide, ?_, ?_, rfl, ?_⟩
  · exact (C8_errors_localized.2.2.2.2.2.1 [] "imi" "/usr/bin/imi" 30 2 "" "boom"
      (by decide)).1
  · exact (C8_errors_localized.2.2.2.2.2.1 [] "imi" "/usr/bin/imi" 30 2 "" "boom"
      (by decide)).2
  · exact C8_errors_localized.2.2.2.2.2.2 [] "imi" "/usr/bin/imi" 30 "hello" "" rfl

/-- C9 (counterexample): on the structured-extraction success path the
constructed `CLIResult` passes no `stderr` argument, so captured
non-empty stderr is dropped: with stdout `{"success": true}` and stderr
`"warning: detached HEAD"`, the Outcome's rawStderr is absent. -/
theorem C9_counterexample :
    run_imi_command [] "imi" (some "/usr/bin/imi") 30
        (.completed ⟨0, .ok "\x7b\"success\": true\x7d", .ok "warning: detached HEAD"⟩)
      = { success := true, data := none, error := none,
          stdout := some "\x7b\"success\": true\x7d", stderr := none,
          exit_code := 0 } ∧
    ("warning: detached HEAD" : String) ≠ "" :=
  ⟨rfl, by decide⟩

/-- C9 (amended): stripped stderr is retained in the Outcome for every
completed execution with cleanly decoded streams that does *not* take
the structured-extraction path — i.e. with a non-zero exit status, or a
zero exit status whose stdout has no JSON result line; on the extraction
path stderr is dropped. -/
theorem C9_stderr_retention_amended (args : List String) (bin p : String)
    (t : Nat) (rc : Int) (so se : String)
    (h : rc ≠ 0 ∨ findJsonLine (pySplitNL (pyStrip so)) = none) :
    (run_imi_command args bin (some p) t (.completed ⟨rc, .ok so, .ok se⟩)).stderr
      = some (pyStrip se) := by
  by_cases hrc : rc = 0
  · subst hrc
    have hfind : findJsonLine (pySplitNL (pyStrip so)) = none := by
      rcases h with h | h
      · exact absurd rfl h
      · exact h
    simp [run_imi_command, hfind]
  · simp [run_imi_command, hrc]

/-- C9 (witness): stderr retention on a non-zero exit. -/
theorem C9_stderr_retention_witness :
    ((2 : Int) ≠ 0 ∨ findJsonLine (pySplitNL (pyStrip "ok")) = none) ∧
    (run_imi_command [] "imi" (some "/usr/bin/imi") 30
        (.completed ⟨2, .ok "ok", .ok "warning"⟩)).stderr = some "warning" :=
  ⟨Or.inl (by decide),
    C9_stderr_retention_amended [] "imi" "/usr/bin/imi" 30 2 "ok" "warning"
      (Or.inl (by decide))⟩

/-- C10: when the underlying command returns a successful `CLIResult`
with no `data` field — the plain-text-success case, exit status 0 and no
structured JSON line in stdout — the `create_worktree` tool reports
failure: `success = false`, the "Failed to create worktree" message, and
`error = "Unknown error"`, despite the command having succeeded. -/
theorem C10_plain_text_reports_failure (name wtype : String)
    (repo : Option String) (bin p : String) (t : Nat) (so se : String)
    (h : findJsonLine (pySplitNL (pyStrip so)) = none) :
    create_worktree name wtype repo bin (some p) t (.completed ⟨0, .ok so, .ok se⟩)
      = { success := false,
          message := "Failed to create worktree \x27" ++ name ++ "\x27",
          data := none, error := some "Unknown error" } := by
  simp only [create_worktree]
  rw [run_no_json_line _ bin p t so se h]
  simp [truthyData, pyOrStr]

/-- C10 (witness): the tool applied to a plain-text-success execution. -/
theorem C10_plain_text_witness :
    findJsonLine (pySplitNL (pyStrip "plain text, no JSON\n")) = none ∧
    create_worktree "my-feature" "feat" none "imi" (some "/usr/bin/imi") 30
        (.completed ⟨0, .ok "plain text, no JSON\n", .ok ""⟩)
      = { success := false,
          message := "Failed to create worktree \x27my-feature\x27",
          data := none, error := some "Unknown error" } :=
  ⟨rfl, C10_plain_text_reports_failure "my-feature" "feat" none "imi"
    "/usr/bin/imi" 30 "plain text, no JSON\n" "" rfl⟩
